import Mathlib

/-!
Shallow embedding of `O365/message.py`: the `Recipient` / `Recipients`
collection, the cloud-data mapping mixin, the `Message` aggregate with its
serializer `to_api_data`, the body-text extraction, and the remote
operations (`send`, `reply`, `forward`, `delete`, `mark_as_read`, `move`,
`copy`, `update_category`, `save_draft`).

Modelling conventions:
* Python exceptions that propagate to the caller are `Except.error msg`;
  a normal return is `Except.ok v`.
* The dynamic typing of arguments is captured by small inductive types
  whose constructors are the `isinstance` branches of the source, plus an
  `other` constructor for every remaining Python type (carrying only its
  truthiness, which is all the source inspects before raising).
* Wire JSON dictionaries become structures with `Option` fields: `none`
  models an absent key, and `Option.getD` models `dict.get` with default.
* The case-converter `self._cc` maps field names between camelCase and
  PascalCase; keys are represented structurally (as fields), so `_cc` is
  the identity of the embedding and is not reified.
* Datetime strings are carried verbatim: `dateutil.parse` followed by
  `astimezone` is kept as the wire string itself, since no verified
  property inspects the value of an instant, only its presence. In
  `to_api_data` the persisted branch dereferences the three timestamps and
  raises (AttributeError on None) when one is absent, as the source does.
* The connection is a function from the request actually issued to either
  a raised exception (`Except.error`) or a `Response`; every operation
  additionally returns the list of network calls it made, so that claims
  about "no network call is made" are statable.
-/

set_option autoImplicit false

namespace O365

/-- A single Recipient (message.py class Recipient): an address and a display
name, both defaulting to the empty string. Python truthiness of a Recipient
is non-emptiness of its address. -/
structure Recipient where
  address : String := ""
  name : String := ""
deriving DecidableEq, Repr

/-- A Python value passed to Recipients.add. The first four constructors are
the isinstance branches of the source; `other` stands for a value of any
remaining type (an int, a dict, ...), carrying only its truthiness, which is
all the source inspects of it. For example the int 0 is `other false`, the
int 5 is `other true`, the empty dict is `other false`. -/
inductive RecipInput where
  | str (s : String)
  | recip (r : Recipient)
  | tup (name address : String)
  | list (xs : List RecipInput)
  | other (truthy : Bool)

/-- The ValueError message raised by Recipients.add on an unsupported type. -/
def valueErrorRecipients : String :=
  "ValueError: Recipients must be an address string, a Recipient instance, a (name, address) tuple or a list"

mutual

/-- Recipients.add for a single input value (message.py lines 67-84). The
leading Python truthiness guard `if recipients:` is inlined into each
constructor case: a falsy input (empty string, falsy Recipient, empty list,
falsy other) is silently skipped. Returns the new recipient list and the
raised error, if any; list inputs recurse element-wise, and a raise inside a
list aborts the loop with the appends made so far kept (Python mutates in
place). -/
def Recipients.addOne (rs : List Recipient) : RecipInput → List Recipient × Option String
  | .str s => if s = "" then (rs, none) else (rs ++ [{ address := s }], none)
  | .recip r => if r.address = "" then (rs, none) else (rs ++ [r], none)
  | .tup name address =>
      if address = "" then (rs, none) else (rs ++ [{ address := address, name := name }], none)
  | .list xs => Recipients.addList rs xs
  | .other truthy => if truthy then (rs, some valueErrorRecipients) else (rs, none)

/-- The for-loop of Recipients.add over a list input: add each element in
order, stopping at the first raised error. -/
def Recipients.addList (rs : List Recipient) : List RecipInput → List Recipient × Option String
  | [] => (rs, none)
  | x :: xs =>
      match Recipients.addOne rs x with
      | (rs2, none) => Recipients.addList rs2 xs
      | (rs2, some e) => (rs2, some e)

end

/-- A Sequence of Recipients (message.py class Recipients): wraps the plain
list attribute `recipients`. -/
structure Recipients where
  recipients : List Recipient := []
deriving DecidableEq, Repr

/-- Recipients.add on the wrapper. -/
def Recipients.add (R : Recipients) (inp : RecipInput) : Recipients × Option String :=
  let (rs, e) := Recipients.addOne R.recipients inp
  (⟨rs⟩, e)

/-- The Recipients constructor called with a list of Recipient objects, as
done by the cloud mapper: `Recipients(recipients_data)` runs `add` on the
list, so falsy recipients (empty address) are dropped. -/
def Recipients.fromList (rs : List Recipient) : Recipients :=
  ⟨(Recipients.addOne [] (.list (rs.map RecipInput.recip))).1⟩

/-- The inner fields of a wire recipient dictionary: optional `address` and
`name` keys. -/
structure WireFields where
  address : Option String := none
  name : Option String := none
deriving DecidableEq, Repr

/-- A wire recipient JSON object, in either of the two shapes the mapper
handles: the envelope shape with an `emailAddress` key holding the fields,
or the flattened shape holding the fields directly. -/
inductive WireRecipient where
  | envelope (inner : WireFields)
  | flat (fields : WireFields)
deriving DecidableEq, Repr

/-- Python truthiness of a wire recipient dictionary: an envelope dict always
has its emailAddress key, so it is truthy; a flat dict is truthy when it has
at least one key. -/
def WireRecipient.truthy : WireRecipient → Bool
  | .envelope _ => true
  | .flat f => f.address.isSome || f.name.isSome

/-- HandleRecipientsMixin._recipient_from_cloud (message.py lines 125-134):
unwraps the emailAddress envelope when present, defaults missing fields to
the empty string; None or a falsy dict yields an empty Recipient. -/
def recipient_from_cloud : Option WireRecipient → Recipient
  | none => {}
  | some w =>
      if w.truthy then
        let f := match w with
          | .envelope inner => inner
          | .flat fields => fields
        { address := f.address.getD "", name := f.name.getD "" }
      else {}

/-- The wire object emitted for one recipient: the inner dict of the
`emailAddress` envelope, with the `name` key optional. -/
structure EmailAddressOut where
  address : String
  name : Option String := none
deriving DecidableEq, Repr

/-- HandleRecipientsMixin._recipient_to_cloud (message.py lines 136-143):
None for a falsy recipient; otherwise the emailAddress envelope with the
name key emitted only when the name is non-empty. -/
def recipient_to_cloud (r : Recipient) : Option EmailAddressOut :=
  if r.address = "" then none
  else some { address := r.address, name := if r.name = "" then none else some r.name }

/-- HandleRecipientsMixin._recipients_from_cloud (message.py lines 118-123):
maps each wire object through the single-recipient mapper, then builds a
Recipients collection from the resulting list. -/
def recipients_from_cloud (ws : List (Option WireRecipient)) : Recipients :=
  Recipients.fromList (ws.map recipient_from_cloud)

/-! Model of BeautifulSoup with the html.parser builder, as used by
Message.get_body_text and Message.get_body_soup. The html.parser builder is
lenient (constructing the soup raises no exception on a plain string) and
does not synthesize missing html or body elements, so `soup.body` is None
unless the input holds a literal body open tag; `.text` of the body element
concatenates the character data outside tags up to the matching close tag,
or to the end of input when the tag is left open. -/

/-- Does the character list start with a body open tag, that is the five
characters of a lower-case body tag followed by the end of the tag name. -/
def isBodyOpen : List Char → Bool
  | '<' :: 'b' :: 'o' :: 'd' :: 'y' :: c :: _ => c = '>' || c = ' '
  | _ => false

/-- Does the character list start with a body close tag. -/
def isBodyClose : List Char → Bool
  | '<' :: '/' :: 'b' :: 'o' :: 'd' :: 'y' :: _ => true
  | _ => false

/-- Drop characters up to and including the next closing angle bracket. -/
def dropThroughGt : List Char → List Char
  | [] => []
  | c :: cs => if c = '>' then cs else dropThroughGt cs

/-- Find the first body open tag and return the characters after it, or none
when the input holds no body element. -/
def bsFindBodyRest : List Char → Option (List Char)
  | [] => none
  | c :: cs =>
      if isBodyOpen (c :: cs) then some (dropThroughGt cs)
      else bsFindBodyRest cs

/-- Take the characters before the body close tag, or everything when the
body element is left open. -/
def bsTakeUntilClose : List Char → List Char
  | [] => []
  | c :: cs => if isBodyClose (c :: cs) then [] else c :: bsTakeUntilClose cs

/-- Remove markup: skip every tag (from an opening to a closing angle
bracket), keep the character data. The Bool is the inside-a-tag state. -/
def stripTagsAux : Bool → List Char → List Char
  | _, [] => []
  | true, c :: cs => if c = '>' then stripTagsAux false cs else stripTagsAux true cs
  | false, c :: cs => if c = '<' then stripTagsAux true cs else c :: stripTagsAux false cs

/-- The text of `BeautifulSoup(s, html.parser).body`: none when the parsed
document has no body element, otherwise the concatenated text content of the
body element. -/
def soupBodyText (s : String) : Option String :=
  (bsFindBodyRest s.data).map fun rest =>
    String.mk (stripTagsAux false (bsTakeUntilClose rest))

/-- The body key of a wire message: optional content and contentType keys. -/
structure BodyData where
  content : Option String := none
  contentType : Option String := none
deriving DecidableEq, Repr

/-- A wire message JSON payload, as read by the Message constructor and as
returned by the cloud on reply, forward, copy and save_draft. The key named
from in the wire format is the field fromField here, from being reserved. A
field is none when the key is absent. hasAttachments defaults to a falsy
value in the source, modelled as a Bool. -/
structure CloudData where
  id : Option String := none
  createdDateTime : Option String := none
  receivedDateTime : Option String := none
  sentDateTime : Option String := none
  hasAttachments : Bool := false
  subject : Option String := none
  body : Option BodyData := none
  fromField : Option WireRecipient := none
  toRecipients : Option (List (Option WireRecipient)) := none
  ccRecipients : Option (List (Option WireRecipient)) := none
  bccRecipients : Option (List (Option WireRecipient)) := none
  replyTo : Option (List (Option WireRecipient)) := none
  categories : Option (List String) := none
  importance : Option String := none
  isRead : Option Bool := none
  isDraft : Option Bool := none
  conversationId : Option String := none
  parentFolderId : Option String := none
deriving DecidableEq, Repr

/-- The importance normalization of the constructor: only normal, low and
high are kept, anything else maps to normal. -/
def importanceNormalize (s : String) : String :=
  if s = "normal" || s = "low" || s = "high" then s else "normal"

/-- The Message state (message.py class Message): the attributes set by
the constructor. Timestamps are carried as the wire strings (see the header
comment); the attachment collection content is abstract, only its length is
observed by the serializer. -/
structure Message where
  object_id : Option String := none
  created : Option String := none
  received : Option String := none
  sent : Option String := none
  has_attachments : Bool := false
  subject : String := ""
  body : String := ""
  body_type : String := "HTML"
  sender : Recipient := {}
  «to» : Recipients := {}
  cc : Recipients := {}
  bcc : Recipients := {}
  reply_to : Recipients := {}
  categories : List String := []
  importance : String := "normal"
  is_read : Option Bool := none
  is_draft : Bool := true
  conversation_id : Option String := none
  folder_id : Option String := none
  attachments : List Unit := []
deriving DecidableEq, Repr

/-- Message.__init__ hydrating from cloud data (message.py lines 164-212),
with the download_attachments flag unset and no is_draft keyword (no caller
in the source passes one), so isDraft defaults to true. -/
def Message.fromCloud (cloud : CloudData) : Message where
  object_id := cloud.id
  created := cloud.createdDateTime
  received := cloud.receivedDateTime
  sent := cloud.sentDateTime
  has_attachments := cloud.hasAttachments
  subject := cloud.subject.getD ""
  body := (cloud.body.getD {}).content.getD ""
  body_type := (cloud.body.getD {}).contentType.getD "HTML"
  sender := recipient_from_cloud cloud.fromField
  «to» := recipients_from_cloud (cloud.toRecipients.getD [])
  cc := recipients_from_cloud (cloud.ccRecipients.getD [])
  bcc := recipients_from_cloud (cloud.bccRecipients.getD [])
  reply_to := recipients_from_cloud (cloud.replyTo.getD [])
  categories := cloud.categories.getD []
  importance := importanceNormalize (cloud.importance.getD "normal")
  is_read := cloud.isRead
  is_draft := cloud.isDraft.getD true
  conversation_id := cloud.conversationId
  folder_id := cloud.parentFolderId
  attachments := []

/-- Message.get_body_text (message.py lines 559-569): a non-HTML body is
returned raw; otherwise the body is parsed (the html.parser builder raises
nothing, so the except branch returning the raw body is dead) and the text
of soup.body is returned, which raises an AttributeError outside the try
block when the parsed document has no body element. -/
def Message.get_body_text (m : Message) : Except String String :=
  if m.body_type ≠ "HTML" then .ok m.body
  else
    match soupBodyText m.body with
    | some t => .ok t
    | none => .error "AttributeError: NoneType object has no attribute text"

/-- Python truthiness of an optional id string: None and the empty string
are falsy. -/
def idTruthy : Option String → Bool
  | none => false
  | some s => s != ""

/-- The extra keys emitted by to_api_data for a persisted non-draft message
(the full signature of the message). -/
structure SignatureData where
  id : String
  createdDateTime : String
  receivedDateTime : String
  sentDateTime : String
  hasAttachments : Bool
  categories : List String
  importance : String
  isRead : Option Bool
  isDraft : Bool
  conversationId : Option String
  parentFolderId : Option String
deriving DecidableEq, Repr

/-- The payload built by Message.to_api_data. fromKey models the from key of
the dict: none when the key is absent, some v when the key is present with
value v, where v itself is the null wire object when the serialized sender
was falsy (the persisted branch can emit that). -/
structure ApiData where
  subject : String
  contentType : String
  content : String
  toRecipients : List (Option EmailAddressOut)
  ccRecipients : List (Option EmailAddressOut)
  bccRecipients : List (Option EmailAddressOut)
  replyTo : List (Option EmailAddressOut)
  attachments : List Unit
  fromKey : Option (Option EmailAddressOut) := none
  signature : Option SignatureData := none
deriving DecidableEq, Repr

/-- Message.to_api_data (message.py lines 269-305). The recipient arrays map
each stored recipient through the cloud mapper with no further filtering.
The persisted non-draft branch dereferences the three timestamps, raising
when one is absent, and additionally emits the signature keys; the other
branch emits the from key only for a truthy sender with a non-empty address
(one and the same condition). -/
def Message.to_api_data (m : Message) : Except String ApiData :=
  let base : ApiData := {
    subject := m.subject
    contentType := m.body_type
    content := m.body
    toRecipients := m.«to».recipients.map recipient_to_cloud
    ccRecipients := m.cc.recipients.map recipient_to_cloud
    bccRecipients := m.bcc.recipients.map recipient_to_cloud
    replyTo := m.reply_to.recipients.map recipient_to_cloud
    attachments := m.attachments }
  if idTruthy m.object_id && !m.is_draft then
    match m.created, m.received, m.sent with
    | some c, some r, some s =>
        .ok { base with
          fromKey := some (recipient_to_cloud m.sender)
          signature := some {
            id := m.object_id.getD ""
            createdDateTime := c
            receivedDateTime := r
            sentDateTime := s
            hasAttachments := decide (0 < m.attachments.length)
            categories := m.categories
            importance := m.importance
            isRead := m.is_read
            isDraft := m.is_draft
            conversationId := m.conversation_id
            parentFolderId := m.folder_id } }
    | _, _, _ => .error "AttributeError: astimezone of None"
  else
    .ok { base with
      fromKey := if m.sender.address = "" then none else some (recipient_to_cloud m.sender) }

/-- A Python value assigned to the categories property or passed to
update_category: the isinstance branches are list, str and tuple; other
stands for a value of any remaining type. -/
inductive CatInput
  | listv (xs : List String)
  | strv (s : String)
  | tupv (xs : List String)
  | other
deriving DecidableEq, Repr

/-- The categories property setter (message.py lines 258-267): a list is
stored as is, a string is stored as a one-element list, a tuple is converted
to a list; any other value raises a ValueError, leaving the stored
categories unchanged. -/
def Message.setCategories (m : Message) (value : CatInput) : Message × Option String :=
  match value with
  | .listv xs => ({ m with categories := xs }, none)
  | .strv s => ({ m with categories := [s] }, none)
  | .tupv xs => ({ m with categories := xs }, none)
  | .other => (m, some "ValueError: categories must be a list")

/-- A Python value assigned to the sender property. -/
inductive SenderInput
  | recip (r : Recipient)
  | strv (s : String)
  | other
deriving DecidableEq, Repr

/-- The sender property setter (message.py lines 224-232): a Recipient
replaces the sender object; a string mutates the address of the existing
sender in place, keeping its name; any other value raises a ValueError,
leaving the sender unchanged. -/
def Message.setSender (m : Message) (value : SenderInput) : Message × Option String :=
  match value with
  | .recip r => ({ m with sender := r }, none)
  | .strv s => ({ m with sender := { m.sender with address := s } }, none)
  | .other => (m, some "ValueError: sender must be an address string or a Recipient object")

/-! Network model: each remote operation returns the Python return value
(with a raised exception as Except.error), the updated message where the
operation mutates state, and the list of calls it made through the
connection. -/

/-- HTTP method of a connection call. -/
inductive HttpMethod
  | post
  | patch
  | delete
deriving DecidableEq, Repr

/-- The request body shapes the operations send. -/
inductive ReqData where
  | sendMail (message : ApiData) (saveToSentItems : Option Bool)
  | isReadTrue
  | destinationId (fid : String)
  | categoriesData (cats : List String)
  | draft (d : ApiData)
deriving DecidableEq, Repr

/-- One network call made through the connection. -/
structure NetCall where
  method : HttpMethod
  url : String
  data : Option ReqData := none
deriving DecidableEq, Repr

/-- A connection response: status code, reason and JSON body. -/
structure Response where
  status_code : Int
  reason : String := ""
  json : CloudData := {}
deriving DecidableEq, Repr

/-- The connection capability: maps the call actually issued to either a
raised exception (error) or a response. -/
def Conn := NetCall → Except String Response

/-! build_url applied to the formatted endpoint templates of the source; the
resource prefix added by build_url is the identity of the embedding. -/

def url_send_draft (oid : String) : String := "/messages/" ++ oid ++ "/send"

def url_send_mail : String := "/sendMail"

def url_get_message (oid : String) : String := "/messages/" ++ oid

def url_move_message (oid : String) : String := "/messages/" ++ oid ++ "/move"

def url_copy_message (oid : String) : String := "/messages/" ++ oid ++ "/copy"

def url_create_reply (oid : String) : String := "/messages/" ++ oid ++ "/createReply"

def url_create_reply_all (oid : String) : String := "/messages/" ++ oid ++ "/createReplyAll"

def url_forward_message (oid : String) : String := "/messages/" ++ oid ++ "/createForward"

def url_create_draft : String := "/messages"

def url_create_draft_folder (fid : String) : String := "/mailFolders/" ++ fid ++ "/messages"

/-- The try/except plus status-check pattern that every remote operation
repeats inline in the source: a connection exception or a status code
differing from the expected one yields none (the operation then returns its
failure value); the expected status yields the response. -/
def runCall (conn : Conn) (call : NetCall) (expected : Int) : Option Response :=
  match conn call with
  | .error _ => none
  | .ok resp => if resp.status_code ≠ expected then none else some resp

/-- The value returned by Message.send: either the RuntimeError object that
the precondition branch returns (the source returns it, it does not raise
it) or a Bool. -/
inductive SendRet
  | errObj (msg : String)
  | boolRet (b : Bool)
deriving DecidableEq, Repr

/-- The RuntimeError text of the send precondition branch. -/
def sendPrecondMsg : String :=
  "RuntimeError: Not possible to send a message that is not new or a draft. Use Reply or Forward instead."

/-- Message.send (message.py lines 307-335). -/
def Message.send (m : Message) (conn : Conn) (save_to_sent_folder : Bool := true) :
    Except String SendRet × Message × List NetCall :=
  if idTruthy m.object_id && !m.is_draft then
    (.ok (.errObj sendPrecondMsg), m, [])
  else
    let urlData : Except String (String × Option ReqData) :=
      if m.is_draft && idTruthy m.object_id then
        .ok (url_send_draft (m.object_id.getD ""), none)
      else
        match m.to_api_data with
        | .error e => .error e
        | .ok d =>
            .ok (url_send_mail,
              some (.sendMail d (if save_to_sent_folder then none else some false)))
    match urlData with
    | .error e => (.error e, m, [])
    | .ok (url, data) =>
        let call : NetCall := { method := .post, url := url, data := data }
        match runCall conn call 202 with
        | none => (.ok (.boolRet false), m, [call])
        | some _ =>
              (.ok (.boolRet true),
               { m with
                  object_id := if idTruthy m.object_id then m.object_id else some "sent_message"
                  is_draft := false },
               [call])

/-- Message.reply (message.py lines 337-363). -/
def Message.reply (m : Message) (conn : Conn) (to_all : Bool := true) :
    Except String (Option Message) × List NetCall :=
  if !idTruthy m.object_id || m.is_draft then
    (.error "RuntimeError: Cant reply to this message", [])
  else
    let url :=
      if to_all then url_create_reply_all (m.object_id.getD "")
      else url_create_reply (m.object_id.getD "")
    let call : NetCall := { method := .post, url := url }
    match runCall conn call 201 with
    | none => (.ok none, [call])
    | some resp => (.ok (some (Message.fromCloud resp.json)), [call])

/-- Message.forward (message.py lines 365-387). -/
def Message.forward (m : Message) (conn : Conn) :
    Except String (Option Message) × List NetCall :=
  if !idTruthy m.object_id || m.is_draft then
    (.error "RuntimeError: Cant forward this message", [])
  else
    let call : NetCall := { method := .post, url := url_forward_message (m.object_id.getD "") }
    match runCall conn call 201 with
    | none => (.ok none, [call])
    | some resp => (.ok (some (Message.fromCloud resp.json)), [call])

/-- Message.delete (message.py lines 389-406); the precondition is an
identity test against None, not a truthiness test. -/
def Message.delete (m : Message) (conn : Conn) :
    Except String Bool × Message × List NetCall :=
  if m.object_id.isNone then
    (.error "RuntimeError: Attempting to delete an unsaved Message", m, [])
  else
    let call : NetCall := { method := .delete, url := url_get_message (m.object_id.getD "") }
    match runCall conn call 204 with
    | none => (.ok false, m, [call])
    | some _ => (.ok true, m, [call])

/-- Message.mark_as_read (message.py lines 408-428). -/
def Message.mark_as_read (m : Message) (conn : Conn) :
    Except String Bool × Message × List NetCall :=
  if m.object_id.isNone || m.is_draft then
    (.error "RuntimeError: Attempting to mark as read an unsaved Message", m, [])
  else
    let call : NetCall := { method := .patch, url := url_get_message (m.object_id.getD ""),
                            data := some .isReadTrue }
    match runCall conn call 200 with
    | none => (.ok false, m, [call])
    | some _ => (.ok true, { m with is_read := some true }, [call])

/-- The folder argument of move and copy: a raw id string, or any other
object from which the folder_id attribute is read (none when absent). -/
inductive FolderInput
  | strv (s : String)
  | obj (folder_id : Option String)
deriving DecidableEq, Repr

/-- Resolution of the duck-typed folder argument, as done by move and copy. -/
def FolderInput.resolve : FolderInput → Option String
  | .strv s => some s
  | .obj fid => fid

/-- Message.move (message.py lines 430-463). -/
def Message.move (m : Message) (conn : Conn) (folder : FolderInput) :
    Except String Bool × Message × List NetCall :=
  if m.object_id.isNone then
    (.error "RuntimeError: Attempting to move an unsaved Message", m, [])
  else
    let fid := folder.resolve
    if !idTruthy fid then
      (.error "RuntimeError: Must Provide a valid folder_id", m, [])
    else
      let call : NetCall := { method := .post, url := url_move_message (m.object_id.getD ""),
                              data := some (.destinationId (fid.getD "")) }
      match runCall conn call 201 with
      | none => (.ok false, m, [call])
      | some _ => (.ok true, { m with folder_id := fid }, [call])

/-- Message.copy (message.py lines 465-499); the unsaved-message text of the
source says move, kept as is. -/
def Message.copy (m : Message) (conn : Conn) (folder : FolderInput) :
    Except String (Option Message) × List NetCall :=
  if m.object_id.isNone then
    (.error "RuntimeError: Attempting to move an unsaved Message", [])
  else
    let fid := folder.resolve
    if !idTruthy fid then
      (.error "RuntimeError: Must Provide a valid folder_id", [])
    else
      let call : NetCall := { method := .post, url := url_copy_message (m.object_id.getD ""),
                              data := some (.destinationId (fid.getD "")) }
      match runCall conn call 201 with
      | none => (.ok none, [call])
      | some resp => (.ok (some (Message.fromCloud resp.json)), [call])

/-- Message.update_category (message.py lines 501-523); the type check on
the argument precedes the saved-message check, and on success the categories
are replaced from the response through the list branch of the setter. -/
def Message.update_category (m : Message) (conn : Conn) (categories : CatInput) :
    Except String Bool × Message × List NetCall :=
  let cats? : Option (List String) :=
    match categories with
    | .listv xs => some xs
    | .tupv xs => some xs
    | _ => none
  match cats? with
  | none => (.error "ValueError: Categories must be a list or tuple", m, [])
  | some cats =>
      if m.object_id.isNone then
        (.error "RuntimeError: Attempting to update an unsaved Message", m, [])
      else
        let call : NetCall := { method := .patch, url := url_get_message (m.object_id.getD ""),
                                data := some (.categoriesData cats) }
        match runCall conn call 200 with
        | none => (.ok false, m, [call])
        | some resp =>
            (.ok true, { m with categories := resp.json.categories.getD [] }, [call])

/-- The target_folder argument of save_draft: the well-known DRAFTS default,
a raw id string, or any other object from which folder_id is read. -/
inductive FolderTarget
  | drafts
  | strv (s : String)
  | obj (folder_id : Option String)
deriving DecidableEq, Repr

/-- Message.save_draft (message.py lines 525-557). The DRAFTS member is not
a string, so the source replaces it by its absent folder_id attribute, which
lands in the default drafts endpoint; a falsy resolved folder also lands
there, with no error raised. -/
def Message.save_draft (m : Message) (conn : Conn) (target_folder : FolderTarget := .drafts) :
    Except String Bool × Message × List NetCall :=
  if !m.is_draft then
    (.error "RuntimeError: Only draft messages can be saved as drafts", m, [])
  else if idTruthy m.object_id then
    (.error "RuntimeError: This message has been already saved to the cloud", m, [])
  else
    match m.to_api_data with
    | .error e => (.error e, m, [])
    | .ok d =>
        let resolved : Option String :=
          match target_folder with
          | .drafts => none
          | .strv s => some s
          | .obj fid => fid
        let url :=
          match resolved with
          | some s => if s = "" then url_create_draft else url_create_draft_folder s
          | none => url_create_draft
        let call : NetCall := { method := .post, url := url, data := some (.draft d) }
        match runCall conn call 201 with
        | none => (.ok false, m, [call])
        | some resp =>
            (.ok true,
             { m with object_id := resp.json.id, folder_id := resp.json.parentFolderId },
             [call])

/-! Specification-side definitions and concrete fixtures used by the
verified properties below. -/

/-- Every recipient of the list is truthy: it has a non-empty address. -/
def AllAddressed (rs : List Recipient) : Prop := ∀ r ∈ rs, r.address ≠ ""

/-- No entry of a serialized recipient array is the null wire object. -/
def NoNulls (xs : List (Option EmailAddressOut)) : Prop := ∀ x ∈ xs, x ≠ none

/-- A response observation is bad for an expected status when it is a raised
exception or a response whose status code differs from the expected one. -/
def BadResp (expected : Int) : Except String Response → Prop
  | .error _ => True
  | .ok r => r.status_code ≠ expected

/-- Did the Python call raise an exception to the caller. -/
def raised {α : Type} : Except String α → Bool
  | .error _ => true
  | .ok _ => false

instance (rs : List Recipient) : Decidable (AllAddressed rs) := by
  unfold AllAddressed
  infer_instance

instance (xs : List (Option EmailAddressOut)) : Decidable (NoNulls xs) := by
  unfold NoNulls
  infer_instance

mutual

/-- An input the claim about valid recipient inputs ranges over: a string, a
tuple, a Recipient, or an arbitrarily nested list of these. -/
def validInput : RecipInput → Bool
  | .str _ => true
  | .recip _ => true
  | .tup _ _ => true
  | .list xs => validList xs
  | .other _ => false

/-- validInput on every element of a list. -/
def validList : List RecipInput → Bool
  | [] => true
  | x :: xs => validInput x && validList xs

end

mutual

/-- The recipients an input actually contributes, read off the source: every
falsy input (empty string, Recipient with empty address, tuple with empty
address, empty or all-falsy list) contributes nothing. -/
def codeFlatten : RecipInput → List Recipient
  | .str s => if s = "" then [] else [{ address := s }]
  | .recip r => if r.address = "" then [] else [r]
  | .tup name address => if address = "" then [] else [{ address := address, name := name }]
  | .list xs => codeFlattenList xs
  | .other _ => []

/-- codeFlatten concatenated over a list. -/
def codeFlattenList : List RecipInput → List Recipient
  | [] => []
  | x :: xs => codeFlatten x ++ codeFlattenList xs

end

mutual

/-- The flattening the claim describes, stated from its words for
comparison: a plain address string is wrapped as a Recipient, a Recipient
instance is kept, a (name, address) tuple is kept only when the address is
truthy (the one drop the claim names), and lists are flattened recursively. -/
def specFlatten : RecipInput → List Recipient
  | .str s => [{ address := s }]
  | .recip r => [r]
  | .tup name address => if address = "" then [] else [{ address := address, name := name }]
  | .list xs => specFlattenList xs
  | .other _ => []

/-- specFlatten concatenated over a list. -/
def specFlattenList : List RecipInput → List Recipient
  | [] => []
  | x :: xs => specFlatten x ++ specFlattenList xs

end

/-- The cloud data of the end-to-end claim: subject S, HTML body of a bare
paragraph, one enveloped recipient, isDraft true. -/
def cloudC1 : CloudData :=
  { subject := some "S"
    body := some { content := some "<p>hi</p>", contentType := some "HTML" }
    toRecipients := some [some (.envelope { address := some "a@b.com", name := some "A" })]
    isDraft := some true }

/-- A persisted, non-draft message: object id set, is_draft false. -/
def msgSent0 : Message := { object_id := some "AAA", is_draft := false }

/-- A fresh new message: no object id, draft by default. -/
def msgNew0 : Message := {}

/-- A connection on which every call raises. -/
def connDead : Conn := fun _ => .error "no network"

/-- A connection on which every call succeeds with status 500. -/
def connBad500 : Conn := fun _ => .ok { status_code := 500 }

/-- A draft message with one recipient and a sender, for the serializer
witnesses. -/
def msgW4 : Message :=
  { sender := { address := "s@x.y" }
    «to» := ⟨[{ address := "a@b.com", name := "A" }]⟩ }

/-- The payload to_api_data builds for msgW4. -/
def dW4 : ApiData :=
  { subject := ""
    contentType := "HTML"
    content := ""
    toRecipients := [some { address := "a@b.com", name := some "A" }]
    ccRecipients := []
    bccRecipients := []
    replyTo := []
    attachments := []
    fromKey := some (some { address := "s@x.y" })
    signature := none }

/-- A nested valid recipient input for the add witness. -/
def inpW6 : RecipInput :=
  .list [.str "a@b.com", .tup "B" "b@c.de", .tup "X" "", .recip { address := "c@d.e", name := "C" }]

/-- A flattened-shape wire recipient for the round-trip witness. -/
def wW7 : WireRecipient := .flat { address := some "x@y.z", name := some "X" }

/-- A fresh draft whose sender has an empty address. -/
def msgW8a : Message := {}

/-- A fresh draft whose sender has a non-empty address. -/
def msgW8b : Message := { sender := { address := "a@b.com" } }

/-- The wire address of a recipient in either shape. -/
def WireRecipient.addr : WireRecipient → String
  | .envelope f => f.address.getD ""
  | .flat f => f.address.getD ""

/-- The wire display name of a recipient in either shape. -/
def WireRecipient.nameOf : WireRecipient → String
  | .envelope f => f.name.getD ""
  | .flat f => f.name.getD ""

/-! Helper lemmas. -/

theorem allAddressed_nil : AllAddressed [] := by
  intro r hr
  cases hr

theorem allAddressed_append_one {rs : List Recipient} {r : Recipient}
    (h1 : AllAddressed rs) (h2 : r.address ≠ "") : AllAddressed (rs ++ [r]) := by
  intro x hx
  rcases List.mem_append.mp hx with h | h
  · exact h1 x h
  · rcases List.mem_singleton.mp h with rfl
    exact h2

mutual

theorem addOne_allAddressed (rs : List Recipient) (inp : RecipInput)
    (h : AllAddressed rs) : AllAddressed (Recipients.addOne rs inp).1 := by
  cases inp with
  | str s =>
      by_cases hs : s = ""
      · simpa [Recipients.addOne, hs] using h
      · simp only [Recipients.addOne, if_neg hs]
        exact allAddressed_append_one h hs
  | recip r =>
      by_cases hr : r.address = ""
      · simpa [Recipients.addOne, hr] using h
      · simp only [Recipients.addOne, if_neg hr]
        exact allAddressed_append_one h hr
  | tup n a =>
      by_cases ha : a = ""
      · simpa [Recipients.addOne, ha] using h
      · simp only [Recipients.addOne, if_neg ha]
        exact allAddressed_append_one h ha
  | list xs =>
      simpa [Recipients.addOne] using addList_allAddressed rs xs h
  | other t =>
      cases t <;> simpa [Recipients.addOne] using h

theorem addList_allAddressed (rs : List Recipient) (xs : List RecipInput)
    (h : AllAddressed rs) : AllAddressed (Recipients.addList rs xs).1 := by
  cases xs with
  | nil => simpa [Recipients.addList] using h
  | cons x xs =>
      have hx := addOne_allAddressed rs x h
      rcases hao : Recipients.addOne rs x with ⟨rs2, e⟩
      rw [hao] at hx
      cases e with
      | none => simpa [Recipients.addList, hao] using addList_allAddressed rs2 xs hx
      | some err => simpa [Recipients.addList, hao] using hx

end

theorem noNulls_map_to_cloud (rs : List Recipient) (h : AllAddressed rs) :
    NoNulls (rs.map recipient_to_cloud) := by
  intro x hx
  rcases List.mem_map.mp hx with ⟨r, hr, rfl⟩
  simp [recipient_to_cloud, h r hr]

theorem runCall_eq_none {conn : Conn} {expected : Int}
    (h : ∀ c, BadResp expected (conn c)) (call : NetCall) :
    runCall conn call expected = none := by
  have hb := h call
  unfold runCall
  cases hc : conn call with
  | error e => rfl
  | ok r =>
      rw [hc] at hb
      simp only [BadResp] at hb
      simp [hb]

theorem to_api_data_draft (m : Message)
    (hpre : (idTruthy m.object_id && !m.is_draft) = false) :
    m.to_api_data = .ok
      { subject := m.subject
        contentType := m.body_type
        content := m.body
        toRecipients := m.«to».recipients.map recipient_to_cloud
        ccRecipients := m.cc.recipients.map recipient_to_cloud
        bccRecipients := m.bcc.recipients.map recipient_to_cloud
        replyTo := m.reply_to.recipients.map recipient_to_cloud
        attachments := m.attachments
        fromKey := if m.sender.address = "" then none
                   else some (recipient_to_cloud m.sender)
        signature := none } := by
  simp [Message.to_api_data, hpre]

theorem to_api_data_arrays (m : Message) (d : ApiData) (hd : m.to_api_data = .ok d) :
    d.toRecipients = m.«to».recipients.map recipient_to_cloud ∧
    d.ccRecipients = m.cc.recipients.map recipient_to_cloud ∧
    d.bccRecipients = m.bcc.recipients.map recipient_to_cloud ∧
    d.replyTo = m.reply_to.recipients.map recipient_to_cloud := by
  unfold Message.to_api_data at hd
  split at hd
  · split at hd
    · cases hd
      exact ⟨rfl, rfl, rfl, rfl⟩
    · cases hd
  · cases hd
    exact ⟨rfl, rfl, rfl, rfl⟩

mutual

theorem addOne_eq_codeFlatten (rs : List Recipient) (inp : RecipInput)
    (h : validInput inp = true) :
    Recipients.addOne rs inp = (rs ++ codeFlatten inp, none) := by
  cases inp with
  | str s => by_cases hs : s = "" <;> simp [Recipients.addOne, codeFlatten, hs]
  | recip r => by_cases hr : r.address = "" <;> simp [Recipients.addOne, codeFlatten, hr]
  | tup n a => by_cases ha : a = "" <;> simp [Recipients.addOne, codeFlatten, ha]
  | list xs =>
      have hl : validList xs = true := by simpa [validInput] using h
      simpa [Recipients.addOne, codeFlatten] using addList_eq_codeFlatten rs xs hl
  | other t => simp [validInput] at h

theorem addList_eq_codeFlatten (rs : List Recipient) (xs : List RecipInput)
    (h : validList xs = true) :
    Recipients.addList rs xs = (rs ++ codeFlattenList xs, none) := by
  cases xs with
  | nil => simp [Recipients.addList, codeFlattenList]
  | cons x xs =>
      rw [validList, Bool.and_eq_true] at h
      have hx := addOne_eq_codeFlatten rs x h.1
      have hxs := addList_eq_codeFlatten (rs ++ codeFlatten x) xs h.2
      simp [Recipients.addList, hx, hxs, codeFlattenList, List.append_assoc]

end

/-! Verified claims. -/

/-- C1: evaluating the code on the cloud data of the claim. The constructed
message does have to[0].address a@b.com and is_draft true, but
get_body_text raises an AttributeError instead of returning hi: the
html.parser builder gives the parsed document of a bare paragraph no body
element, and the source dereferences soup.body outside its try block. -/
theorem claimC1_eval :
    (Message.fromCloud cloudC1).«to».recipients.map Recipient.address = ["a@b.com"] ∧
    (Message.fromCloud cloudC1).is_draft = true ∧
    (Message.fromCloud cloudC1).get_body_text =
      .error "AttributeError: NoneType object has no attribute text" := by
  refine ⟨by decide, by decide, by rfl⟩

/-- C5 counterexample: the int 0 is neither a string, nor a Recipient, nor
a tuple, nor a list, yet add raises nothing and changes nothing, because
the leading truthiness guard silently ignores every falsy value before the
type dispatch reaches its ValueError branch. -/
theorem claimC5_counterexample :
    Recipients.addOne [] (.other false) = ([], none) := by decide

/-- C5 amended: a truthy input of an unsupported type makes add fail with
the ValueError and leaves the list unchanged; a falsy one (the int 0, the
empty dict) is silently ignored, also leaving the list unchanged. -/
theorem claimC5_theorem (rs : List Recipient) (t : Bool) :
    Recipients.addOne rs (.other t) =
      (rs, if t then some valueErrorRecipients else none) := by
  cases t <;> rfl

/-- C6 counterexample: a Recipient instance with an empty address and a
non-empty name is a valid input, yet add appends nothing for it, while the
claim describes only the empty-address tuple as silently dropped. -/
theorem claimC6_counterexample :
    (Recipients.addOne [] (.recip { address := "", name := "Bob" })).1 = [] ∧
    specFlatten (.recip { address := "", name := "Bob" }) =
      [{ address := "", name := "Bob" }] := by
  exact ⟨by decide, by decide⟩

/-- C6 amended: for every valid recipient input, add appends exactly the
flattened recipients in order and raises nothing, where every falsy input
contributes nothing: not only the empty-address tuple but also an empty
address string and a Recipient instance with an empty address are silently
dropped. -/
theorem claimC6_theorem (rs : List Recipient) (inp : RecipInput)
    (h : validInput inp = true) :
    Recipients.addOne rs inp = (rs ++ codeFlatten inp, none) :=
  addOne_eq_codeFlatten rs inp h

/-- C6 witness: the amended theorem evaluated on a concrete nested input. -/
theorem claimC6_witness :
    Recipients.addOne [] inpW6 =
      ([{ address := "a@b.com" }, { address := "b@c.de", name := "B" },
        { address := "c@d.e", name := "C" }], none) :=
  (claimC6_theorem [] inpW6 (by decide)).trans (by decide)

/-- C7: for a wire recipient with a non-empty address, in either the
envelope or the flattened shape, mapping from the cloud and back yields the
emailAddress object with the same address, the same name when the name is
non-empty, and the name key omitted when it is empty. -/
theorem claimC7_theorem (w : WireRecipient) (h : w.addr ≠ "") :
    recipient_to_cloud (recipient_from_cloud (some w)) =
      some { address := w.addr
             name := if w.nameOf = "" then none else some w.nameOf } := by
  cases w with
  | envelope f =>
      simp only [recipient_from_cloud, WireRecipient.truthy, if_true]
      simp only [WireRecipient.addr] at h
      simp [recipient_to_cloud, WireRecipient.addr, WireRecipient.nameOf, h]
  | flat f =>
      have ha : f.address.isSome = true := by
        cases hf : f.address with
        | none => simp [WireRecipient.addr, hf] at h
        | some a => rfl
      simp only [recipient_from_cloud, WireRecipient.truthy, ha, Bool.true_or, if_true]
      simp only [WireRecipient.addr] at h
      simp [recipient_to_cloud, WireRecipient.addr, WireRecipient.nameOf, h]

/-- C7 witness: the round trip evaluated on a concrete flattened-shape wire
recipient. -/
theorem claimC7_witness :
    recipient_to_cloud (recipient_from_cloud (some wW7)) =
      some { address := "x@y.z", name := some "X" } :=
  (claimC7_theorem wW7 (by decide)).trans (by decide)

/-- C9: assigning to categories stores a list as is, a string as the
one-element list holding it, a tuple as the list of its elements; any other
value raises a ValueError and leaves the stored categories unchanged. -/
theorem claimC9_theorem (m : Message) :
    (∀ xs, m.setCategories (.listv xs) = ({ m with categories := xs }, none)) ∧
    (∀ s, m.setCategories (.strv s) = ({ m with categories := [s] }, none)) ∧
    (∀ xs, m.setCategories (.tupv xs) = ({ m with categories := xs }, none)) ∧
    m.setCategories .other = (m, some "ValueError: categories must be a list") := by
  refine ⟨fun xs => rfl, fun s => rfl, fun xs => rfl, rfl⟩

/-- C10: assigning a string to sender mutates the address of the existing
sender in place and preserves its name; assigning a Recipient replaces the
sender object; any other value raises a ValueError and leaves the sender
unchanged. -/
theorem claimC10_theorem (m : Message) :
    (∀ s, m.setSender (.strv s) =
        ({ m with sender := { address := s, name := m.sender.name } }, none)) ∧
    (∀ r, m.setSender (.recip r) = ({ m with sender := r }, none)) ∧
    m.setSender .other =
      (m, some "ValueError: sender must be an address string or a Recipient object") := by
  refine ⟨fun s => rfl, fun r => rfl, rfl⟩

/-- C4: the recipient arrays of to_api_data contain no null entries for any
message whose recipient lists carry only truthy recipients, which is the
invariant the class maintains: add appends no falsy recipient (part one),
construction from cloud data routes every list through add and so
establishes it (part two), and the serializer maps such lists to arrays
without nulls (part three). -/
theorem claimC4_theorem :
    (∀ rs inp, AllAddressed rs → AllAddressed (Recipients.addOne rs inp).1) ∧
    (∀ cloud, AllAddressed (Message.fromCloud cloud).«to».recipients ∧
      AllAddressed (Message.fromCloud cloud).cc.recipients ∧
      AllAddressed (Message.fromCloud cloud).bcc.recipients ∧
      AllAddressed (Message.fromCloud cloud).reply_to.recipients) ∧
    (∀ (m : Message) (d : ApiData),
      AllAddressed m.«to».recipients → AllAddressed m.cc.recipients →
      AllAddressed m.bcc.recipients → AllAddressed m.reply_to.recipients →
      m.to_api_data = .ok d →
      NoNulls d.toRecipients ∧ NoNulls d.ccRecipients ∧
      NoNulls d.bccRecipients ∧ NoNulls d.replyTo) := by
  refine ⟨addOne_allAddressed, ?_, ?_⟩
  · intro cloud
    exact ⟨addOne_allAddressed [] _ allAddressed_nil,
      addOne_allAddressed [] _ allAddressed_nil,
      addOne_allAddressed [] _ allAddressed_nil,
      addOne_allAddressed [] _ allAddressed_nil⟩
  · intro m d h1 h2 h3 h4 hd
    obtain ⟨e1, e2, e3, e4⟩ := to_api_data_arrays m d hd
    exact ⟨e1 ▸ noNulls_map_to_cloud _ h1, e2 ▸ noNulls_map_to_cloud _ h2,
      e3 ▸ noNulls_map_to_cloud _ h3, e4 ▸ noNulls_map_to_cloud _ h4⟩

/-- C4 witness: the serializer part evaluated on a concrete message with a
recipient, and the invariant part on a concrete add. -/
theorem claimC4_witness :
    NoNulls dW4.toRecipients ∧ AllAddressed (Recipients.addOne [] (.str "x@y.z")).1 := by
  constructor
  · exact (claimC4_theorem.2.2 msgW4 dW4 (by decide) (by decide) (by decide) (by decide)
      (by rfl)).1
  · exact claimC4_theorem.1 [] (.str "x@y.z") (by decide)

/-- C8: for a new or draft message (object id not truthy, or draft),
to_api_data succeeds and its payload holds the from key exactly when the
sender has a non-empty address, and then with the serialized sender. -/
theorem claimC8_theorem (m : Message)
    (h : idTruthy m.object_id = false ∨ m.is_draft = true) :
    m.to_api_data.map ApiData.fromKey =
      .ok (if m.sender.address = "" then none else some (recipient_to_cloud m.sender)) := by
  have hpre : (idTruthy m.object_id && !m.is_draft) = false := by
    rcases h with h | h <;> simp [h]
  rw [to_api_data_draft m hpre]
  rfl

/-- C8 witness: the from key is absent for a fresh draft with an empty
sender address and present for one with a non-empty sender address. -/
theorem claimC8_witness :
    msgW8a.to_api_data.map ApiData.fromKey = .ok none ∧
    msgW8b.to_api_data.map ApiData.fromKey =
      .ok (some (some { address := "a@b.com" })) := by
  constructor
  · exact (claimC8_theorem msgW8a (Or.inl (by rfl))).trans (by rfl)
  · exact (claimC8_theorem msgW8b (Or.inl (by rfl))).trans (by rfl)

/-- C2 counterexample: send on a persisted non-draft message produces its
RuntimeError as a returned value, Except.ok, not as a raised error, while
making no network call; the claim describes this failure as raised. -/
theorem claimC2_counterexample :
    Message.send msgSent0 connDead = (.ok (.errObj sendPrecondMsg), msgSent0, []) := by
  rfl

/-- C2 amended: every remote operation whose local precondition is violated
fails locally with no network call made; the error is raised for reply,
forward, delete, mark_as_read, move, copy, update_category and save_draft,
while send returns its RuntimeError as a value instead of raising it. -/
theorem claimC2_theorem :
    (∀ m (conn : Conn) sv, idTruthy m.object_id = true → m.is_draft = false →
        Message.send m conn sv = (.ok (.errObj sendPrecondMsg), m, [])) ∧
    (∀ m (conn : Conn) ta, idTruthy m.object_id = false ∨ m.is_draft = true →
        raised (Message.reply m conn ta).1 = true ∧ (Message.reply m conn ta).2 = []) ∧
    (∀ m (conn : Conn), idTruthy m.object_id = false ∨ m.is_draft = true →
        raised (Message.forward m conn).1 = true ∧ (Message.forward m conn).2 = []) ∧
    (∀ m (conn : Conn), m.object_id = none →
        raised (Message.delete m conn).1 = true ∧ (Message.delete m conn).2.2 = []) ∧
    (∀ m (conn : Conn), m.object_id = none ∨ m.is_draft = true →
        raised (Message.mark_as_read m conn).1 = true ∧
        (Message.mark_as_read m conn).2.2 = []) ∧
    (∀ m (conn : Conn) f, m.object_id = none ∨ idTruthy f.resolve = false →
        raised (Message.move m conn f).1 = true ∧ (Message.move m conn f).2.2 = []) ∧
    (∀ m (conn : Conn) f, m.object_id = none ∨ idTruthy f.resolve = false →
        raised (Message.copy m conn f).1 = true ∧ (Message.copy m conn f).2 = []) ∧
    (∀ m (conn : Conn) c, (c = CatInput.other ∨ ∃ s, c = CatInput.strv s) ∨
        m.object_id = none →
        raised (Message.update_category m conn c).1 = true ∧
        (Message.update_category m conn c).2.2 = []) ∧
    (∀ m (conn : Conn) tf, m.is_draft = false ∨ idTruthy m.object_id = true →
        raised (Message.save_draft m conn tf).1 = true ∧
        (Message.save_draft m conn tf).2.2 = []) := by
  refine ⟨?_, ?_, ?_, ?_, ?_, ?_, ?_, ?_, ?_⟩
  · intro m conn sv h1 h2
    simp [Message.send, h1, h2]
  · intro m conn ta h
    rcases h with h | h <;> simp [Message.reply, raised, h]
  · intro m conn h
    rcases h with h | h <;> simp [Message.forward, raised, h]
  · intro m conn h
    simp [Message.delete, raised, h]
  · intro m conn h
    rcases h with h | h <;> simp [Message.mark_as_read, raised, h]
  · intro m conn f h
    rcases h with h | h
    · simp [Message.move, raised, h]
    · cases ho : m.object_id with
      | none => simp [Message.move, raised, ho]
      | some oid => simp [Message.move, raised, ho, h]
  · intro m conn f h
    rcases h with h | h
    · simp [Message.copy, raised, h]
    · cases ho : m.object_id with
      | none => simp [Message.copy, raised, ho]
      | some oid => simp [Message.copy, raised, ho, h]
  · intro m conn c h
    rcases h with h | h
    · rcases h with h | ⟨s, h⟩ <;> subst h <;> simp [Message.update_category, raised]
    · cases c <;> simp [Message.update_category, raised, h]
  · intro m conn tf h
    rcases h with h | h
    · simp [Message.save_draft, raised, h]
    · by_cases hd : m.is_draft = true
      · simp [Message.save_draft, raised, hd, h]
      · simp [Message.save_draft, raised, hd]

/-- C2 witness: the amended theorem evaluated on a persisted non-draft
message for send and on a fresh message for delete. -/
theorem claimC2_witness :
    Message.send msgSent0 connDead true = (.ok (.errObj sendPrecondMsg), msgSent0, []) ∧
    raised (Message.delete msgNew0 connDead).1 = true ∧
    (Message.delete msgNew0 connDead).2.2 = [] := by
  refine ⟨claimC2_theorem.1 msgSent0 connDead true (by rfl) (by rfl), ?_, ?_⟩
  · exact (claimC2_theorem.2.2.2.1 msgNew0 connDead (by rfl)).1
  · exact (claimC2_theorem.2.2.2.1 msgNew0 connDead (by rfl)).2

/-- C3: once the precondition checks pass, a connection exception and an
unexpected status code both yield the operation failure value, False or
None, and no exception propagates: the hypothesis makes every observation
of the connection bad (a raise or a wrong status), and the conclusion is
the plain Except.ok failure return. -/
theorem claimC3_theorem :
    (∀ m (conn : Conn) sv, (idTruthy m.object_id && !m.is_draft) = false →
        (∀ c, BadResp 202 (conn c)) →
        (Message.send m conn sv).1 = .ok (.boolRet false)) ∧
    (∀ m (conn : Conn) ta, idTruthy m.object_id = true → m.is_draft = false →
        (∀ c, BadResp 201 (conn c)) → (Message.reply m conn ta).1 = .ok none) ∧
    (∀ m (conn : Conn), idTruthy m.object_id = true → m.is_draft = false →
        (∀ c, BadResp 201 (conn c)) → (Message.forward m conn).1 = .ok none) ∧
    (∀ m (conn : Conn) oid, m.object_id = some oid →
        (∀ c, BadResp 204 (conn c)) → (Message.delete m conn).1 = .ok false) ∧
    (∀ m (conn : Conn) oid, m.object_id = some oid → m.is_draft = false →
        (∀ c, BadResp 200 (conn c)) → (Message.mark_as_read m conn).1 = .ok false) ∧
    (∀ m (conn : Conn) f oid, m.object_id = some oid → idTruthy f.resolve = true →
        (∀ c, BadResp 201 (conn c)) → (Message.move m conn f).1 = .ok false) ∧
    (∀ m (conn : Conn) f oid, m.object_id = some oid → idTruthy f.resolve = true →
        (∀ c, BadResp 201 (conn c)) → (Message.copy m conn f).1 = .ok none) ∧
    (∀ m (conn : Conn) oid xs, m.object_id = some oid →
        (∀ c, BadResp 200 (conn c)) →
        (Message.update_category m conn (.listv xs)).1 = .ok false ∧
        (Message.update_category m conn (.tupv xs)).1 = .ok false) ∧
    (∀ m (conn : Conn) tf, m.is_draft = true → idTruthy m.object_id = false →
        (∀ c, BadResp 201 (conn c)) → (Message.save_draft m conn tf).1 = .ok false) := by
  refine ⟨?_, ?_, ?_, ?_, ?_, ?_, ?_, ?_, ?_⟩
  · intro m conn sv hpre hbad
    have hok := to_api_data_draft m hpre
    by_cases hdr : (m.is_draft && idTruthy m.object_id) = true <;>
      simp [Message.send, hpre, hdr, hok, runCall_eq_none hbad]
  · intro m conn ta h1 h2 hbad
    simp [Message.reply, h1, h2, runCall_eq_none hbad]
  · intro m conn h1 h2 hbad
    simp [Message.forward, h1, h2, runCall_eq_none hbad]
  · intro m conn oid ho hbad
    simp [Message.delete, ho, runCall_eq_none hbad]
  · intro m conn oid ho h2 hbad
    simp [Message.mark_as_read, ho, h2, runCall_eq_none hbad]
  · intro m conn f oid ho hf hbad
    simp [Message.move, ho, hf, runCall_eq_none hbad]
  · intro m conn f oid ho hf hbad
    simp [Message.copy, ho, hf, runCall_eq_none hbad]
  · intro m conn oid xs ho hbad
    constructor <;> simp [Message.update_category, ho, runCall_eq_none hbad]
  · intro m conn tf h1 h2 hbad
    have hpre : (idTruthy m.object_id && !m.is_draft) = false := by simp [h2]
    have hok := to_api_data_draft m hpre
    simp [Message.save_draft, h1, h2, hok, runCall_eq_none hbad]

/-- C3 witness: send with a raising connection, and reply with a connection
answering status 500, both fail with their failure value. -/
theorem claimC3_witness :
    (Message.send msgNew0 connDead true).1 = .ok (.boolRet false) ∧
    (Message.reply msgSent0 connBad500 true).1 = .ok none := by
  constructor
  · exact claimC3_theorem.1 msgNew0 connDead true (by rfl)
      (fun c => by show True; exact trivial)
  · exact claimC3_theorem.2.1 msgSent0 connBad500 true (by rfl) (by rfl)
      (fun c => by show (500 : Int) ≠ 201; decide)

end O365
